import Mathlib

/-!
Verification of the WyrmWatch server (src/wyrmwatch/wyrmwatch_server.py)
against its natural-language specification.  Every definition below is a
shallow embedding of a function, constant, or control path of the Python
source; doc comments cite the source lines each definition was translated
from.  External collaborators (the MQTT client library, pymongo, the json
and UTF-8 codecs of the standard library, the OpenAI client) are modelled
as parameters describing their possible outcomes, never as repo code.
-/

namespace Wyrmwatch

/-- Constant MAX_CONCURRENT_TASKS, source line 37: capacity of the task
semaphore created at line 381. -/
def MAX_CONCURRENT_TASKS : Nat := 5

/-- Constant MAX_CONCURRENT_AI, source line 38: capacity of the AI
(enrichment) semaphore created at line 382. -/
def MAX_CONCURRENT_AI : Nat := 2

/-- Constant METRICS_REPORTING_INTERVAL, source line 39: seconds between
periodic metric publishes in report_metrics (lines 441-459). -/
def METRICS_REPORTING_INTERVAL : Nat := 30

/-- Task priorities, source class TaskPriority (lines 49-53). -/
inductive TaskPriority where
  | critical
  | high
  | medium
  | low
  deriving DecidableEq

/-- Task statuses, source class TaskStatus (lines 56-60). -/
inductive TaskStatus where
  | pending
  | in_progress
  | completed
  | failed
  deriving DecidableEq

/-- Python str.lower(), character-wise ASCII lowering, as used at source
lines 266, 268, 273 and 275 on the description text. -/
def py_lower (s : String) : String :=
  String.mk (s.data.map Char.toLower)

/-- Boolean substring test on character lists: true when needle occurs
contiguously inside the haystack.  Models the Python expression
word in text used at lines 266, 268, 273, 275. -/
def containsSub (needle : List Char) : List Char → Bool
  | [] => needle.isEmpty
  | c :: t => needle.isPrefixOf (c :: t) || containsSub needle t

/-- Substring test on strings: strContains hay needle is the Python
expression needle in hay. -/
def strContains (hay needle : String) : Bool :=
  containsSub needle.toList hay.toList

/-- Keyword list of the high-priority branch, source line 266. -/
def highPriorityKeywords : List String :=
  ["urgent", "critical", "immediately", "asap"]

/-- Keyword list of the low-priority branch, source line 268. -/
def lowPriorityKeywords : List String :=
  ["minor", "cosmetic", "eventually", "when possible"]

/-- Simple keyword-based priority detection of the enrichment fallback,
source lines 264-269: priority starts at MEDIUM, becomes HIGH if any
high keyword occurs in the lower-cased description, otherwise LOW if
any low keyword occurs, otherwise stays MEDIUM. -/
def simple_priority (description : String) : TaskPriority :=
  if highPriorityKeywords.any (fun w => strContains (py_lower description) w) then
    TaskPriority.high
  else if lowPriorityKeywords.any (fun w => strContains (py_lower description) w) then
    TaskPriority.low
  else
    TaskPriority.medium

/-- Keyword-based project detection of the enrichment fallback, source
lines 271-277: slack-integration if the lower-cased description contains
slack, github-tools if it contains github, else wyrmwatch. -/
def simple_project (description : String) : String :=
  if strContains (py_lower description) "slack" then "slack-integration"
  else if strContains (py_lower description) "github" then "github-tools"
  else "wyrmwatch"

/-- Python str.split() with no argument: split on whitespace runs and
drop empty pieces; used at source line 258. -/
def descriptionWords (description : String) : List String :=
  (description.split Char.isWhitespace).filter (fun w => w ≠ "")

/-- Enhanced-text template of the enrichment fallback, source lines
258-262. -/
def simple_enhanced (description : String) : String :=
  if 5 < (descriptionWords description).length then
    "Enhanced: " ++ description ++
      "\n\nThis task involves working with the wyrmwatch system."
  else
    "Task: " ++ description ++
      "\n\nThis requires attention to detail and careful implementation."

/-- Result of enhance_todo_description (source lines 173-278) on the path
taken when the OpenAI gateway is absent, unconfigured, or its call raised
(condition at line 180 false, or the except at lines 253-255 falling
through): the deterministic heuristic triple of lines 257-278. -/
def enhance_todo_description (description : String) :
    String × TaskPriority × String :=
  (simple_enhanced description, simple_priority description,
    simple_project description)

/-- Transcription of the specification sentence for the priority
heuristic, written from the words of the spec (section 4.2 step 5):
priority is high if the lower-cased description contains any of urgent,
critical, immediately, asap; low if it contains any of minor, cosmetic,
eventually, when possible; else medium. -/
def spec_priority (description : String) : TaskPriority :=
  let d := py_lower description
  if strContains d "urgent" || strContains d "critical" ||
      strContains d "immediately" || strContains d "asap" then
    TaskPriority.high
  else if strContains d "minor" || strContains d "cosmetic" ||
      strContains d "eventually" || strContains d "when possible" then
    TaskPriority.low
  else
    TaskPriority.medium

/-- Values of the JSON data model, standing for the results that the
Python standard-library call json.loads can return at source lines 469
and 514.  The parser itself is standard-library code, so functions below
take its result as a parameter of this type (or none for a raised
JSONDecodeError). -/
inductive JsonValue where
  | null
  | bool (b : Bool)
  | num (n : Int)
  | str (s : String)
  | arr (elems : List JsonValue)
  | obj (fields : List (String × JsonValue))

/-- Key lookup in a JSON object, modelling the Python test
isinstance(x, dict) together with key membership and indexing used at
source lines 515-516. -/
def jsonLookup (fields : List (String × JsonValue)) (key : String) :
    Option JsonValue :=
  match fields with
  | [] => none
  | (k, v) :: t => if k = key then some v else jsonLookup t key

/-- Payload decoding of process_task, source lines 512-520: parsed is the
result of json.loads on the payload text (none when it raised).  If the
parse produced a mapping containing a description key, that value is the
description; on any other parse result, and on parse failure, the whole
payload text is the description.  The function is total: it never fails. -/
def decode_description (parsed : Option JsonValue) (payload : String) :
    JsonValue :=
  match parsed with
  | some (JsonValue.obj fields) =>
    match jsonLookup fields "description" with
    | some v => v
    | none => JsonValue.str payload
  | _ => JsonValue.str payload

/-- Todo document built by add_todo, source lines 146-156.  Timestamps are
abstracted to a Nat supplied by the caller in place of datetime.now(). -/
structure TodoDoc where
  description : String
  enhanced_description : String
  status : TaskStatus
  priority : TaskPriority
  created_at : Nat
  updated_at : Nat
  target_agent : String
  context : Option String
  project : String
  deriving DecidableEq

/-- Outcome of the pymongo insert_one call at source line 160, an external
collaborator: it either raises an exception (message msg) or completes
with an InsertOneResult whose inserted_id is tested for truthiness at
line 162 (modelled as an optional numeric id). -/
inductive PersistOutcome where
  | raised (msg : String)
  | completed (inserted_id : Option Nat)

/-- Response dictionary returned by add_todo (source lines 164-171) and
by execute on an unknown command (line 129). -/
structure ToolResponse where
  status : String
  message : String
  deriving DecidableEq

/-- Python expression x or fallback on an optional string, as used at
source line 143: the fallback is taken when x is absent or empty. -/
def pyStrOr (x : Option String) (fallback : String) : String :=
  match x with
  | some s => if s = "" then fallback else s
  | none => fallback

/-- TodoTool.add_todo, source lines 131-171.  The enhancement call at
line 138 is passed in as enh: ok carries the triple returned by
enhance_todo_description, error the message of a raised exception, in
which case the except at lines 139-143 substitutes the raw description,
MEDIUM priority and the caller project (or the wyrmwatch fallback).  The
insert at line 160 is passed in as persist.  The first component is the
todo document of lines 146-156, always built; the second is the returned
response, or error when the insert raised (the exception propagates to
the caller, lines 158-160 having no try). -/
def add_todo (enh : Except String (String × TaskPriority × String))
    (persist : PersistOutcome) (now : Nat) (description : String)
    (context : Option String) (target_agent : String)
    (project : Option String) : TodoDoc × Except String ToolResponse :=
  let enhanced :=
    match enh with
    | Except.ok t => t
    | Except.error _ =>
        (description, TaskPriority.medium, pyStrOr project "wyrmwatch")
  let todo : TodoDoc :=
    { description := description
      enhanced_description := enhanced.1
      status := TaskStatus.pending
      priority := enhanced.2.1
      created_at := now
      updated_at := now
      target_agent := target_agent
      context := context
      project := enhanced.2.2 }
  match persist with
  | PersistOutcome.raised m => (todo, Except.error m)
  | PersistOutcome.completed (some _) =>
      (todo, Except.ok
        { status := "success", message := "Added new todo: " ++ description })
  | PersistOutcome.completed none =>
      (todo, Except.ok
        { status := "error", message := "Failed to add todo" })

/-- TodoTool.execute, source lines 115-129: dispatches on the command
parameter; for add it calls add_todo with the description, context and
target_agent parameters and the project parameter defaulted to wyrmwatch
when absent (line 124, dict.get with default); any other command yields
an error response without touching the database. -/
def execute (command : String)
    (enh : Except String (String × TaskPriority × String))
    (persist : PersistOutcome) (now : Nat) (description : String)
    (context : Option String) (target_agent : String)
    (projectParam : Option String) :
    Option TodoDoc × Except String ToolResponse :=
  if command = "add" then
    let r := add_todo enh persist now description context target_agent
      (some (projectParam.getD "wyrmwatch"))
    (some r.1, r.2)
  else
    (none, Except.ok
      { status := "error", message := "Unknown command: " ++ command })

/-- Observable effects of one dispatch unit of work: metric increments,
the published responses (topic paired with the status field of the
payload), and the todo document handed to persistence, if one was built. -/
structure UnitOutcome where
  processed_inc : Nat
  failed_inc : Nat
  publishes : List (String × String)
  record : Option TodoDoc

/-- WyrmWatchServer.process_task, source lines 505-566, at the level of
one unit of work that has already been admitted by both semaphores: the
description is the decoded text, and enh and persist carry the outcomes
of the external enhancement and insert calls.  The inner try at lines
535-562 turns a raising execute into a failed increment and an error
publish on response/target/error (lines 550-562); a returning execute
yields a processed increment and a publish on response/target/todo
(lines 536-548).  Either way the unit returns normally: no exception
escapes it. -/
def process_task (enh : Except String (String × TaskPriority × String))
    (persist : PersistOutcome) (now : Nat) (description : String)
    (target_agent : String) : UnitOutcome :=
  let r := execute "add" enh persist now description
    (some "wyrmwatch_server") target_agent none
  match r.2 with
  | Except.ok _ =>
      { processed_inc := 1
        failed_inc := 0
        publishes := [("response/" ++ target_agent ++ "/todo", "success")]
        record := r.1 }
  | Except.error _ =>
      { processed_inc := 0
        failed_inc := 1
        publishes := [("response/" ++ target_agent ++ "/error", "error")]
        record := r.1 }

/-- Server-level state touched by WyrmWatchServer.shutdown, source lines
413-439: whether the MQTT client is connected (publish at lines 341-360
succeeds only while it is, and MqttClient.disconnect leaves it
disconnected, lines 316-339), how many final-status publishes have
succeeded, how many times MqttClient.disconnect has been invoked, whether
shutdown_event has been set (line 385, set at line 439), and how many
units of work are currently in flight. -/
structure ServerState where
  connected : Bool
  final_publishes : Nat
  disconnect_calls : Nat
  shutdown_event : Bool
  in_flight : Nat
  deriving DecidableEq

/-- Initial server state after start (line 395): connected, no publishes
or disconnects yet, shutdown_event clear. -/
def initialServerState : ServerState :=
  { connected := true
    final_publishes := 0
    disconnect_calls := 0
    shutdown_event := false
    in_flight := 0 }

/-- WyrmWatchServer.shutdown, source lines 413-439, as a state
transformer.  In source order: publish the final-status payload with the
metrics snapshot (lines 421-430, succeeding only while connected, lines
343-345); call MqttClient.disconnect (line 433), after which the client
is disconnected; await asyncio.sleep(1) (line 436), which changes no
server state; set shutdown_event (line 439).  There is no guard against
re-entry and in-flight units of work are neither awaited nor cancelled. -/
def shutdown (s : ServerState) : ServerState :=
  let s1 :=
    if s.connected then { s with final_publishes := s.final_publishes + 1 }
    else s
  let s2 :=
    { s1 with connected := false, disconnect_calls := s1.disconnect_calls + 1 }
  { s2 with shutdown_event := true }

/-- Iterated invocation of shutdown, for stating what n successive
triggers produce. -/
def shutdownIter : Nat → ServerState → ServerState
  | 0, s => s
  | n + 1, s => shutdownIter n (shutdown s)

/-- Alphabet of steps a shutdown execution can perform, for stating their
order.  awaitInFlight (waiting for in-flight units of work to finish)
belongs to the alphabet so that its absence from the executed sequence
can be stated. -/
inductive ShutdownAction where
  | publishFinalStatus
  | disconnectBus
  | sleepGrace (seconds : Nat)
  | setShutdownEvent
  | awaitInFlight
  deriving DecidableEq

/-- Sequence of steps executed by WyrmWatchServer.shutdown, in source
order: publish the final status (lines 427-430), disconnect the MQTT
client (line 433), sleep one second (line 436), set shutdown_event
(line 439). -/
def shutdown_actions : List ShutdownAction :=
  [ShutdownAction.publishFinalStatus, ShutdownAction.disconnectBus,
    ShutdownAction.sleepGrace 1, ShutdownAction.setShutdownEvent]

/-- Possible results of awaiting an asyncio.Semaphore acquisition.  The
cancelledSignal constructor is the cancellation outcome the specification
speaks about; it is part of the alphabet so that its absence can be
stated. -/
inductive AcquireOutcome where
  | acquired
  | blocked
  | cancelledSignal
  deriving DecidableEq

/-- Semantics of awaiting the semaphores created at source lines 381-382,
as entered by the async-with statements at lines 508 and 531: the await
acquires a slot when fewer than the capacity are held and otherwise
blocks until one frees.  The shutdown_event flag of the server (line 385)
is in scope but the acquisition does not consult it: nothing in the
source cancels the tasks spawned at line 503, so no cancellation is ever
delivered to these awaits. -/
def semaphore_acquire (shutdown_event : Bool) (holders capacity : Nat) :
    AcquireOutcome :=
  if holders < capacity then AcquireOutcome.acquired
  else AcquireOutcome.blocked

/-- Alphabet of the operations a unit of work performs, for stating their
order inside process_task. -/
inductive PAction where
  | acquireTaskPermit
  | parsePayload
  | acquireAIPermit
  | enhanceCall
  | buildRecord
  | persistCall
  | incProcessed
  | incFailed
  | publishResponse
  | releaseAIPermit
  | releaseTaskPermit
  deriving DecidableEq

/-- Order of the operations executed by process_task, source lines
505-566, with persistRaises telling whether the insert at line 160
raised: enter the task semaphore (508); parse the payload (512-520);
enter the AI semaphore (531); inside it, execute runs the enhancement
(138) and builds and persists the record (146-160); still inside it, the
terminal counter increment and the response publish happen (536-548 on
success, 550-562 on failure); the AI semaphore is released at the end of
its async-with block (562), and the task semaphore last (566). -/
def process_task_actions (persistRaises : Bool) : List PAction :=
  [PAction.acquireTaskPermit, PAction.parsePayload, PAction.acquireAIPermit,
    PAction.enhanceCall, PAction.buildRecord, PAction.persistCall] ++
  (if persistRaises then [PAction.incFailed, PAction.publishResponse]
   else [PAction.incProcessed, PAction.publishResponse]) ++
  [PAction.releaseAIPermit, PAction.releaseTaskPermit]

/-- Global dispatch state: the three TaskMetrics counters (source lines
62-83) together with how many units of work sit at each stage of
process_task.  units_started counts units spawned at line 503 that have
not yet entered the task semaphore; units_have_task counts units inside
the task semaphore but not the AI semaphore (lines 508-528);
units_have_both counts units inside both semaphores (lines 531-562);
units_finishing counts units that have left the AI semaphore but not yet
the task semaphore; units_done counts completed units. -/
structure DispatchState where
  tasks_received : Nat
  tasks_processed : Nat
  tasks_failed : Nat
  units_started : Nat
  units_have_task : Nat
  units_have_both : Nat
  units_finishing : Nat
  units_done : Nat
  deriving DecidableEq

/-- Number of units currently holding a task-semaphore slot. -/
def task_holders (s : DispatchState) : Nat :=
  s.units_have_task + s.units_have_both + s.units_finishing

/-- Dispatch state at server start: all counters zero, no units. -/
def initialDispatchState : DispatchState :=
  { tasks_received := 0, tasks_processed := 0, tasks_failed := 0
    units_started := 0, units_have_task := 0, units_have_both := 0
    units_finishing := 0, units_done := 0 }

/-- One interleaving step of the dispatch engine.  arrive embeds
handle_message on a task-topic event (source lines 494-503): the received
counter is incremented once (line 496) and a unit is spawned (line 503),
all before any semaphore is touched.  acquire_task and acquire_ai embed
the semaphore entries at lines 508 and 531, enabled only below the
respective capacities.  fail_unit embeds the outer except at lines
564-566: a unit inside only the task semaphore fails, increments the
failed counter once, and releases its slot.  finish_success and
finish_failure embed the terminal outcome inside both semaphores (lines
536-548 and 550-562): exactly one of the processed or failed counters is
incremented, once, and the AI slot is released at the end of its block.
release_task embeds the final release of the task slot (line 566). -/
inductive Step : DispatchState → DispatchState → Prop where
  | arrive (s : DispatchState) :
      Step s { s with tasks_received := s.tasks_received + 1,
                      units_started := s.units_started + 1 }
  | acquire_task (s : DispatchState) (h1 : 0 < s.units_started)
      (h2 : task_holders s < MAX_CONCURRENT_TASKS) :
      Step s { s with units_started := s.units_started - 1,
                      units_have_task := s.units_have_task + 1 }
  | fail_unit (s : DispatchState) (h : 0 < s.units_have_task) :
      Step s { s with units_have_task := s.units_have_task - 1,
                      units_done := s.units_done + 1,
                      tasks_failed := s.tasks_failed + 1 }
  | acquire_ai (s : DispatchState) (h1 : 0 < s.units_have_task)
      (h2 : s.units_have_both < MAX_CONCURRENT_AI) :
      Step s { s with units_have_task := s.units_have_task - 1,
                      units_have_both := s.units_have_both + 1 }
  | finish_success (s : DispatchState) (h : 0 < s.units_have_both) :
      Step s { s with units_have_both := s.units_have_both - 1,
                      units_finishing := s.units_finishing + 1,
                      tasks_processed := s.tasks_processed + 1 }
  | finish_failure (s : DispatchState) (h : 0 < s.units_have_both) :
      Step s { s with units_have_both := s.units_have_both - 1,
                      units_finishing := s.units_finishing + 1,
                      tasks_failed := s.tasks_failed + 1 }
  | release_task (s : DispatchState) (h : 0 < s.units_finishing) :
      Step s { s with units_finishing := s.units_finishing - 1,
                      units_done := s.units_done + 1 }

/-- States reachable from server start by any sequence of inbound events
and any interleaving of dispatch units. -/
inductive Reachable : DispatchState → Prop where
  | init : Reachable initialDispatchState
  | step {s t : DispatchState} : Reachable s → Step s t → Reachable t

/-- Inductive invariant of the dispatch engine: the received counter
counts every spawned unit; the processed and failed counters count
exactly the units past their terminal outcome; the semaphore occupancies
respect the two capacities. -/
def DispatchInv (s : DispatchState) : Prop :=
  s.tasks_received = s.units_started + s.units_have_task +
    s.units_have_both + s.units_finishing + s.units_done ∧
  s.tasks_processed + s.tasks_failed = s.units_finishing + s.units_done ∧
  task_holders s ≤ MAX_CONCURRENT_TASKS ∧
  s.units_have_both ≤ MAX_CONCURRENT_AI

/-- Witness state: the dispatch state right after one task event arrived. -/
def witnessStateA : DispatchState :=
  { tasks_received := 1, tasks_processed := 0, tasks_failed := 0
    units_started := 1, units_have_task := 0, units_have_both := 0
    units_finishing := 0, units_done := 0 }

/-- Witness state: one arrived event whose unit has entered the task
semaphore. -/
def witnessStateB : DispatchState :=
  { tasks_received := 1, tasks_processed := 0, tasks_failed := 0
    units_started := 0, units_have_task := 1, units_have_both := 0
    units_finishing := 0, units_done := 0 }

/-- Claim C9: for every description string, the heuristic fallback assigns
priority high if its lower-cased form contains any of urgent, critical,
immediately, asap; otherwise low if it contains any of minor, cosmetic,
eventually, when possible; otherwise medium; and the three spec examples
evaluate to high, low and medium respectively. -/
theorem C9_priority_heuristic :
    (∀ d : String, simple_priority d = spec_priority d) ∧
    simple_priority "Fix urgent bug in login" = TaskPriority.high ∧
    simple_priority "minor cosmetic cleanup" = TaskPriority.low ∧
    simple_priority "update docs" = TaskPriority.medium := by
  refine ⟨?_, by decide, by decide, by decide⟩
  intro d
  simp only [simple_priority, spec_priority, highPriorityKeywords,
    lowPriorityKeywords, List.any_cons, List.any_nil, Bool.or_false,
    Bool.or_assoc]

/-- The dispatch invariant holds at server start. -/
theorem dispatchInv_init : DispatchInv initialDispatchState := by
  unfold DispatchInv task_holders initialDispatchState
  refine ⟨rfl, rfl, by decide, by decide⟩

/-- The dispatch invariant is preserved by every interleaving step. -/
theorem dispatchInv_step {s t : DispatchState} (hs : DispatchInv s)
    (h : Step s t) : DispatchInv t := by
  obtain ⟨r, p, f, u1, u2, u3, u4, u5⟩ := s
  cases h <;>
    (simp only [DispatchInv, task_holders, MAX_CONCURRENT_TASKS,
        MAX_CONCURRENT_AI] at *; omega)

/-- The dispatch invariant holds in every reachable state. -/
theorem dispatchInv_reachable {s : DispatchState} (h : Reachable s) :
    DispatchInv s := by
  induction h with
  | init => exact dispatchInv_init
  | step _ hstep ih => exact dispatchInv_step ih hstep

/-- Claim C1: for every sequence of inbound events and every interleaving
of dispatch units, at every observation instant the metrics satisfy
processed + failed ≤ received: received is incremented exactly once per
task-topic event before any permit acquisition (the arrive step), and
processed/failed are each incremented at most once per unit, only at its
terminal outcome (the fail_unit, finish_success and finish_failure
steps). -/
theorem C1_metrics_invariant (s : DispatchState) (h : Reachable s) :
    s.tasks_processed + s.tasks_failed ≤ s.tasks_received := by
  have hi := dispatchInv_reachable h
  unfold DispatchInv task_holders at hi
  omega

/-- Witness for C1: the invariant instantiated at the concrete reachable
state right after one event arrived. -/
theorem C1_metrics_invariant_witness :
    witnessStateA.tasks_processed + witnessStateA.tasks_failed ≤
      witnessStateA.tasks_received :=
  C1_metrics_invariant witnessStateA
    (Reachable.step Reachable.init (Step.arrive initialDispatchState))

/-- Claim C10: in every reachable state of the dispatch step relation, at
most MAX_CONCURRENT_TASKS = 5 units hold a task permit and at most
MAX_CONCURRENT_AI = 2 units hold an enrichment permit, and the configured
capacities satisfy M ≤ N. -/
theorem C10_capacity_invariant (s : DispatchState) (h : Reachable s) :
    task_holders s ≤ MAX_CONCURRENT_TASKS ∧
    s.units_have_both ≤ MAX_CONCURRENT_AI ∧
    MAX_CONCURRENT_AI ≤ MAX_CONCURRENT_TASKS := by
  have hi := dispatchInv_reachable h
  exact ⟨hi.2.2.1, hi.2.2.2, by decide⟩

/-- Witness for C10: the capacity bounds instantiated at the concrete
reachable state in which one unit holds a task permit. -/
theorem C10_capacity_invariant_witness :
    task_holders witnessStateB ≤ MAX_CONCURRENT_TASKS ∧
    witnessStateB.units_have_both ≤ MAX_CONCURRENT_AI ∧
    MAX_CONCURRENT_AI ≤ MAX_CONCURRENT_TASKS :=
  C10_capacity_invariant witnessStateB
    (Reachable.step (Reachable.step Reachable.init
        (Step.arrive initialDispatchState))
      (Step.acquire_task witnessStateA (by decide) (by decide)))

/-- Counterexample to claim C2 as stated: invoking the shutdown trigger
twice from the initial connected state performs two MessageBus disconnect
invocations, not exactly one — shutdown has no idempotence guard. -/
theorem C2_shutdown_counterexample :
    ¬ ((shutdownIter 2 initialServerState).final_publishes = 1 ∧
       (shutdownIter 2 initialServerState).disconnect_calls = 1) := by
  decide

/-- Publish and disconnect counts of iterated shutdown from a
disconnected state: no further final publish succeeds and every
invocation adds one disconnect call. -/
theorem shutdownIter_disconnected (n : Nat) :
    ∀ (fp dc : Nat) (ev : Bool) (fl : Nat),
      (shutdownIter n ⟨false, fp, dc, ev, fl⟩).final_publishes = fp ∧
      (shutdownIter n ⟨false, fp, dc, ev, fl⟩).disconnect_calls = dc + n := by
  induction n with
  | zero => intro fp dc ev fl; exact ⟨rfl, rfl⟩
  | succ n ih =>
      intro fp dc ev fl
      have hred : shutdown ⟨false, fp, dc, ev, fl⟩ =
          ⟨false, fp, dc + 1, true, fl⟩ := rfl
      simp only [shutdownIter, hred]
      have h2 := ih fp (dc + 1) true fl
      exact ⟨h2.1, by omega⟩

/-- Claim C2, amended: the shutdown trigger is not idempotent — it has no
state guard, so every invocation re-runs the whole body.  Each call
attempts the final-metrics publish and calls MessageBus disconnect; since
the first call leaves the client disconnected and a publish succeeds only
while connected, n + 1 invocations from the running state produce exactly
one successful final-metrics publish but n + 1 disconnect invocations. -/
theorem C2_shutdown_amended (n : Nat) :
    (shutdownIter (n + 1) initialServerState).final_publishes = 1 ∧
    (shutdownIter (n + 1) initialServerState).disconnect_calls = n + 1 := by
  have hred : shutdown initialServerState = ⟨false, 1, 1, true, 0⟩ := rfl
  simp only [shutdownIter, hred]
  have h2 := shutdownIter_disconnected n 1 1 true 0
  exact ⟨h2.1, by omega⟩

/-- Counterexample to claim C3 as stated: in the executed shutdown
sequence the MessageBus disconnect does not come after the grace sleep —
it precedes it — and no step waits for in-flight units of work before the
disconnect. -/
theorem C3_order_counterexample :
    ¬ ((shutdown_actions.indexOf (ShutdownAction.sleepGrace 1) <
          shutdown_actions.indexOf ShutdownAction.disconnectBus) ∧
       ShutdownAction.awaitInFlight ∈ shutdown_actions) := by
  decide

/-- Claim C3, amended: in every shutdown execution the steps occur in
this order: the final MetricsSnapshot is published as the shutdown
payload, then the MessageBus disconnect, then the fixed one-second grace
sleep, and only then is the shutdown event set (the cancellation signal
and Stopped transition come last, after the disconnect, not before);
in-flight units of work are not awaited at any point, and the trigger
leaves their number unchanged. -/
theorem C3_order_amended :
    shutdown_actions.indexOf ShutdownAction.publishFinalStatus <
      shutdown_actions.indexOf ShutdownAction.disconnectBus ∧
    shutdown_actions.indexOf ShutdownAction.disconnectBus <
      shutdown_actions.indexOf (ShutdownAction.sleepGrace 1) ∧
    shutdown_actions.indexOf (ShutdownAction.sleepGrace 1) <
      shutdown_actions.indexOf ShutdownAction.setShutdownEvent ∧
    ShutdownAction.awaitInFlight ∉ shutdown_actions ∧
    ∀ s : ServerState, (shutdown s).in_flight = s.in_flight := by
  refine ⟨by decide, by decide, by decide, by decide, ?_⟩
  intro s
  obtain ⟨c, fp, dc, ev, fl⟩ := s
  cases c <;> rfl

/-- Counterexample to claim C4 as stated: with the shutdown event already
set (the system Draining) and a free slot, an acquisition returns a
permit and the unit proceeds to process its event — it does not return a
cancellation signal. -/
theorem C4_acquire_counterexample :
    semaphore_acquire true 0 MAX_CONCURRENT_TASKS = AcquireOutcome.acquired ∧
    AcquireOutcome.acquired ≠ AcquireOutcome.cancelledSignal := by
  decide

/-- Claim C4, amended: entering shutdown has no effect on acquisitions —
acquireTask and acquireEnrichment never return a cancellation signal;
they acquire when a slot is free and otherwise block until one frees,
identically whether or not the shutdown event is set.  Consequently no
unit of work ever observes cancellation at acquisition, and the clause
about abandoning without incrementing processed or failed is vacuous. -/
theorem C4_acquire_amended (ev : Bool) (holders capacity : Nat) :
    semaphore_acquire ev holders capacity ≠ AcquireOutcome.cancelledSignal ∧
    semaphore_acquire ev holders capacity =
      semaphore_acquire false holders capacity := by
  refine ⟨?_, rfl⟩
  unfold semaphore_acquire
  split
  · decide
  · decide

/-- Counterexample to claim C5 as stated: in the order of operations of
process_task, the persistence call happens strictly before the
enrichment-permit release, so the release of the enrichment permit does
not precede building and persisting the TaskRecord. -/
theorem C5_release_counterexample :
    ¬ ((process_task_actions false).indexOf PAction.releaseAIPermit <
       (process_task_actions false).indexOf PAction.persistCall) := by
  decide

/-- Claim C5, amended: within every unit of work the enrichment permit is
acquired only while the task permit is already held and is released
before the task permit is released; however the TaskRecord is built and
persisted while the enrichment permit is still held — the persistence
call executes inside the enrichment-gated block, before the permit
release, whether or not the insert raises. -/
theorem C5_nesting_amended (persistRaises : Bool) :
    (process_task_actions persistRaises).indexOf PAction.acquireTaskPermit <
      (process_task_actions persistRaises).indexOf PAction.acquireAIPermit ∧
    (process_task_actions persistRaises).indexOf PAction.acquireAIPermit <
      (process_task_actions persistRaises).indexOf PAction.buildRecord ∧
    (process_task_actions persistRaises).indexOf PAction.buildRecord <
      (process_task_actions persistRaises).indexOf PAction.persistCall ∧
    (process_task_actions persistRaises).indexOf PAction.persistCall <
      (process_task_actions persistRaises).indexOf PAction.releaseAIPermit ∧
    (process_task_actions persistRaises).indexOf PAction.releaseAIPermit <
      (process_task_actions persistRaises).indexOf PAction.releaseTaskPermit
    := by
  cases persistRaises <;> decide

/-- Counterexample to claim C6 as stated: the empty byte payload decodes
to the empty text, json.loads raises on it, and the decoded description
is the empty string — decoding yields an empty, not a non-empty,
description. -/
theorem C6_empty_counterexample :
    decode_description none "" = JsonValue.str "" := rfl

/-- Claim C6, amended: payload decoding is a total function that never
fails — if the payload parses as a JSON mapping containing a description
field, that field value is the description, and on every other parse
result (including parse failure) the entire payload text is the
description — and a record is always built from the result; but the
description is not always non-empty: it is empty exactly when its source
is (the empty payload, or an empty description field). -/
theorem C6_decode_amended (parsed : Option JsonValue) (payload : String)
    (enh : Except String (String × TaskPriority × String))
    (persist : PersistOutcome) (now : Nat) (context : Option String)
    (target_agent : String) (project : Option String) :
    ((∃ fields v, parsed = some (JsonValue.obj fields) ∧
        jsonLookup fields "description" = some v ∧
        decode_description parsed payload = v) ∨
      decode_description parsed payload = JsonValue.str payload) ∧
    (decode_description parsed payload = JsonValue.str "" →
      payload = "" ∨ ∃ fields, parsed = some (JsonValue.obj fields) ∧
        jsonLookup fields "description" = some (JsonValue.str "")) ∧
    ((add_todo enh persist now payload context target_agent project).1.description
        = payload ∧
      (add_todo enh persist now payload context target_agent project).1.status
        = TaskStatus.pending) := by
  refine ⟨?_, ?_, ?_⟩
  · rcases parsed with _ | j
    · exact Or.inr rfl
    · cases j with
      | obj fields =>
        cases hl : jsonLookup fields "description" with
        | none =>
            refine Or.inr ?_
            simp [decode_description, hl]
        | some v =>
            exact Or.inl ⟨fields, v, rfl, hl, by simp [decode_description, hl]⟩
      | null => exact Or.inr rfl
      | bool b => exact Or.inr rfl
      | num n => exact Or.inr rfl
      | str s => exact Or.inr rfl
      | arr xs => exact Or.inr rfl
  · intro hdec
    rcases parsed with _ | j
    · simp [decode_description] at hdec
      exact Or.inl hdec
    · cases j with
      | obj fields =>
        cases hl : jsonLookup fields "description" with
        | none =>
            simp [decode_description, hl] at hdec
            exact Or.inl hdec
        | some v =>
            simp [decode_description, hl] at hdec
            subst hdec
            exact Or.inr ⟨fields, rfl, hl⟩
      | null => simp [decode_description] at hdec; exact Or.inl hdec
      | bool b => simp [decode_description] at hdec; exact Or.inl hdec
      | num n => simp [decode_description] at hdec; exact Or.inl hdec
      | str s => simp [decode_description] at hdec; exact Or.inl hdec
      | arr xs => simp [decode_description] at hdec; exact Or.inl hdec
  · rcases persist with m | o
    · exact ⟨rfl, rfl⟩
    · rcases o with _ | i <;> exact ⟨rfl, rfl⟩

/-- Witness for C6: the emptiness characterization applied at the
concrete input of the empty payload with a failed parse, its hypothesis
discharged by evaluation. -/
theorem C6_decode_amended_witness :
    ("" : String) = "" ∨ ∃ fields, (none : Option JsonValue) =
      some (JsonValue.obj fields) ∧
      jsonLookup fields "description" = some (JsonValue.str "") :=
  (C6_decode_amended none "" (Except.error "enhancement failed")
    (PersistOutcome.completed (some 1)) 0 none "user" none).2.1 rfl

/-- Claim C7: for every task event reaching the persistence step, when
the insert completes with an id the processed counter is incremented and
a success payload is published to response/target_agent/todo, and when
the insert raises the failed counter is incremented and an error payload
is published to response/target_agent/error; the unit of work returns
normally in both cases, publishing exactly one response, so the failure
never propagates beyond it. -/
theorem C7_persistence_outcomes
    (enh : Except String (String × TaskPriority × String))
    (now : Nat) (description target_agent m : String) (i : Nat) :
    (process_task enh (PersistOutcome.completed (some i)) now description
        target_agent).processed_inc = 1 ∧
    (process_task enh (PersistOutcome.completed (some i)) now description
        target_agent).failed_inc = 0 ∧
    (process_task enh (PersistOutcome.completed (some i)) now description
        target_agent).publishes =
      [("response/" ++ target_agent ++ "/todo", "success")] ∧
    (process_task enh (PersistOutcome.raised m) now description
        target_agent).processed_inc = 0 ∧
    (process_task enh (PersistOutcome.raised m) now description
        target_agent).failed_inc = 1 ∧
    (process_task enh (PersistOutcome.raised m) now description
        target_agent).publishes =
      [("response/" ++ target_agent ++ "/error", "error")] :=
  ⟨rfl, rfl, rfl, rfl, rfl, rfl⟩

/-- Counterexample to claim C8 as stated: with the enrichment gateway
absent, a description mentioning slack completes through the heuristic
fallback with project slack-integration, which is neither the
caller-supplied project (the dispatch path always supplies wyrmwatch)
nor the fixed fallback name wyrmwatch. -/
theorem C8_project_counterexample :
    ((process_task (Except.ok (enhance_todo_description "sync slack messages"))
        (PersistOutcome.completed (some 1)) 0 "sync slack messages"
        "alice").record.map TodoDoc.project) = some "slack-integration" ∧
    ("slack-integration" : String) ≠ "wyrmwatch" := by
  constructor
  · rfl
  · decide

/-- Claim C8, amended: for every task event on which the enrichment
gateway fails or is absent, the unit of work completes via the heuristic
fallback without incrementing failed (the event counts as processed);
the record project field is then keyword-derived — slack-integration if
the description mentions slack, github-tools if it mentions github, else
wyrmwatch — and the caller-supplied project (or the wyrmwatch fallback)
is used only when the enhancement call itself raises. -/
theorem C8_fallback_amended (d target_agent e : String) (now i : Nat)
    (persist2 : PersistOutcome) (context project : Option String) :
    (process_task (Except.ok (enhance_todo_description d))
      (PersistOutcome.completed (some i)) now d target_agent).failed_inc
        = 0 ∧
    (process_task (Except.ok (enhance_todo_description d))
      (PersistOutcome.completed (some i)) now d target_agent).processed_inc
        = 1 ∧
    ((process_task (Except.ok (enhance_todo_description d))
      (PersistOutcome.completed (some i)) now d target_agent).record.map
        TodoDoc.project) = some (simple_project d) ∧
    (simple_project d = "wyrmwatch" ∨ simple_project d = "slack-integration" ∨
      simple_project d = "github-tools") ∧
    (add_todo (Except.error e) persist2 now d context target_agent
        project).1.project = pyStrOr project "wyrmwatch" := by
  refine ⟨rfl, rfl, rfl, ?_, ?_⟩
  · unfold simple_project
    split
    · exact Or.inr (Or.inl rfl)
    · split
      · exact Or.inr (Or.inr rfl)
      · exact Or.inl rfl
  · rcases persist2 with m | o
    · rfl
    · rcases o with _ | j <;> rfl

end Wyrmwatch
